import Mathlib

/-!
Shallow embedding of `dynamicresponse/response.py` from django-dynamicresponse.

Python dictionaries are modelled as association lists in insertion order
(`List (String × α)`): lookup finds the unique binding, and `dict.update` /
item assignment replace the value in place for an existing key and append
for a new one, matching CPython's ordered-dict semantics.

`django.http` response objects, `render_to_response` and form objects are the
host framework's; they are modelled per the external-interface description:
a response is a core payload (JSON object / rendered template / redirect)
plus a header mapping, and a form-like object exposes a validity flag and an
error mapping from field name to a list of messages (or a plain string).

`JsonResponse` is this repository's own class (`dynamicresponse/json_response.py`)
but its file is not part of the sources here, so it is modelled from the spec.
-/

namespace DynRes

/-- A value of a Django form's `errors` mapping: a list of message strings
(the usual case) or a plain string (the code also tolerates non-lists). -/
inductive ErrVal where
  | lst : List String → ErrVal
  | strv : String → ErrVal
deriving DecidableEq, Repr

/-- A Python value as far as this module inspects values: strings, numbers,
`(label, code)` status tuples, form-like objects (validity flag plus error
mapping), and string-valued dictionaries (the shape of `field_errors`, whose
entries are always flattened message strings). -/
inductive Value where
  | str : String → Value
  | natv : Nat → Value
  | pairv : String → Nat → Value
  | form : Bool → List (String × ErrVal) → Value
  | sdict : List (String × String) → Value
deriving DecidableEq, Repr

/-- A context dictionary: string keys to values, in insertion order. -/
abbrev Ctx := List (String × Value)

/-- Dictionary lookup on an association list: first binding wins. -/
def aget {α : Type} : List (String × α) → String → Option α
  | [], _ => none
  | (k, v) :: t, h => if k = h then some v else aget t h

/-- Dictionary item assignment `d[k] = v`: replace in place if the key is
present, else append at the end (insertion-order dict semantics). -/
def aset {α : Type} : List (String × α) → String → α → List (String × α)
  | [], h, v => [(h, v)]
  | (k, w) :: t, h, v => if k = h then (h, v) :: t else (k, w) :: aset t h v

/-- `d.update(e)`: assign every binding of `e` into `d`, in order. -/
def aupdate {α : Type} (d e : List (String × α)) : List (String × α) :=
  e.foldl (fun acc kv => aset acc kv.1 kv.2) d

/-- `dict.get(key, default)`. -/
def agetD {α : Type} (d : List (String × α)) (k : String) (dflt : α) : α :=
  (aget d k).getD dflt

/-- `CR_OK = ('OK', 200)` -/
def CR_OK : String × Nat := ("OK", 200)

/-- `CR_INVALID_DATA = ('INVALID', 400)` -/
def CR_INVALID_DATA : String × Nat := ("INVALID", 400)

/-- `CR_NOT_FOUND = ('NOT_FOUND', 404)` -/
def CR_NOT_FOUND : String × Nat := ("NOT_FOUND", 404)

/-- `CR_CONFIRM = ('CONFIRM', 405)` -/
def CR_CONFIRM : String × Nat := ("CONFIRM", 405)

/-- `CR_DELETED = ('DELETED', 204)` -/
def CR_DELETED : String × Nat := ("DELETED", 204)

/-- `CR_REQUIRES_UPGRADE = ('REQUIRES_UPGRADE', 402)` -/
def CR_REQUIRES_UPGRADE : String × Nat := ("REQUIRES_UPGRADE", 402)

/-- An incoming HTTP request as this module sees it: the `is_api` flag set by
the middleware, plus an opaque payload standing for everything else on the
request object (used only when building a `RequestContext`). -/
structure Request where
  is_api : Bool
  payload : Nat
deriving DecidableEq, Repr

/-- Header mapping of a response object. -/
abbrev Headers := List (String × String)

/-- The core payload of an outgoing response: a JSON response with an optional
body object and a numeric status, a rendered template (`render_to_response`
keeps the template name, the context it was rendered with and the
`RequestContext`'s request), or a redirect (`HttpResponseRedirect`). -/
inductive ResCore where
  | json : Option Ctx → Nat → ResCore
  | rendered : String → Ctx → Request → ResCore
  | redirect : String → ResCore
deriving DecidableEq, Repr

/-- Is the core a JSON-serialized response? -/
def ResCore.isJson : ResCore → Bool
  | .json _ _ => true
  | _ => false

/-- Is the core a rendered template? -/
def ResCore.isRendered : ResCore → Bool
  | .rendered _ _ _ => true
  | _ => false

/-- An outgoing response object: core payload plus headers
(`res[header] = value` mutates the header mapping). -/
structure Res where
  core : ResCore
  headers : Headers
deriving DecidableEq, Repr

/-- `res[header] = value` -/
def Res.setHeader (r : Res) (h v : String) : Res :=
  { r with headers := aset r.headers h v }

/-- Modelled from the spec: `JsonResponse` lives in
`dynamicresponse/json_response.py`, which is not among the sources here.
The spec describes it as "a JSON-response constructor taking a body and
status code" and gives the OK case (where `serialize` passes no status)
code 200, so an omitted status defaults to 200; an omitted body yields a
bodiless (empty-body) JSON response. -/
def JsonResponse (object : Option Ctx) (status : Option Nat) : Res :=
  ⟨.json object (status.getD 200), []⟩

/-- The base dispatcher state after `DynamicResponse.__init__`: the context,
the status attribute, and the optional dynamically attached `extra` and
`extra_headers` attributes (absent attribute = `none`, so `hasattr` is
`Option.isSome`). The status attribute holds whatever value
`context.get('status', CR_OK)` returned (or a later `setattr` stored). -/
structure DynamicResponse where
  context : Ctx
  status : Value
  extra : Option Ctx
  extra_headers : Option Headers
deriving DecidableEq, Repr

/-- A keyword argument to a dispatcher constructor. `__init__` runs
`setattr(self, arg, kwargs[arg])` for each one, so any attribute — including
`status` — can be (re)assigned this way. Only the attributes the module ever
reads are modelled. -/
inductive KwArg where
  | extra : Ctx → KwArg
  | extra_headers : Headers → KwArg
  | status : Value → KwArg
deriving DecidableEq, Repr

/-- `setattr(self, arg, kwargs[arg])` for one keyword argument. -/
def applyKw (d : DynamicResponse) : KwArg → DynamicResponse
  | .extra e => { d with extra := some e }
  | .extra_headers h => { d with extra_headers := some h }
  | .status s => { d with status := s }

/-- `DynamicResponse.__init__(self, context={}, **kwargs)`:
stores the context, sets `self.status = context.get('status', CR_OK)`,
then applies each keyword argument with `setattr` in order. -/
def DynamicResponse.init (context : Ctx) (kwargs : List KwArg) : DynamicResponse :=
  kwargs.foldl applyKw
    { context := context
      status := agetD context "status" (Value.pairv CR_OK.1 CR_OK.2)
      extra := none
      extra_headers := none }

/-- Flattening of one error value: `' '.join(val)` when it is a list,
the value unchanged otherwise. -/
def flattenErr : ErrVal → String
  | .lst l => String.intercalate " " l
  | .strv s => s

/-- One iteration of the inner loop of `serialize`'s invalid-data branch:
flatten the error value, then store it under `general_errors` when the key is
`__all__`, else under `field_errors[key]` (creating the `field_errors`
dictionary when absent). -/
def addFormError (errors : Ctx) (key : String) (val : ErrVal) : Ctx :=
  let v := flattenErr val
  if key = "__all__" then
    aset errors "general_errors" (Value.str v)
  else
    match aget errors "field_errors" with
    | some (Value.sdict fe) =>
        aset errors "field_errors" (Value.sdict (aset fe key v))
    | _ =>
        -- `field_errors` absent: `errors['field_errors'] = {}` then assign.
        -- (Only this code writes the key, always with a dictionary, so a
        -- non-dictionary binding never occurs.)
        aset errors "field_errors" (Value.sdict (aset [] key v))

/-- The form-like values of the `extra` mapping, in dictionary order
(the list comprehension filtering on `isinstance(value, Form | ModelForm)`). -/
def formsOf (extra : Ctx) : List (Bool × List (String × ErrVal)) :=
  extra.filterMap fun kv =>
    match kv.2 with
    | .form valid errs => some (valid, errs)
    | _ => none

/-- The `errors` dictionary built by `serialize`'s invalid-data branch:
for every form among `extra`'s values that is not valid, fold its error
items through `addFormError`. -/
def collectFormErrors (extra : Ctx) : Ctx :=
  (formsOf extra).foldl
    (fun errors f =>
      if f.1 then errors
      else f.2.foldl (fun acc kv => addFormError acc kv.1 kv.2) errors)
    []

/-- `DynamicResponse.serialize`. The feature flag
`settings.DYNAMICRESPONSE_JSON_FORM_ERRORS` is process-wide configuration read
at serialization time, passed explicitly. `key, status_code = self.status`
unpacks the status attribute; a non-tuple there raises, modelled as `none`. -/
def DynamicResponse.serialize (flag : Bool) (d : DynamicResponse) : Option Res :=
  match d.status with
  | .pairv _ status_code =>
      if status_code = CR_OK.2 then
        some (JsonResponse (some d.context) none)
      else if status_code = CR_INVALID_DATA.2 then
        match d.extra with
        | some extra =>
            if flag then
              some (JsonResponse (some (collectFormErrors extra)) (some status_code))
            else
              some (JsonResponse none (some status_code))
        | none => some (JsonResponse none (some status_code))
      else
        some (JsonResponse none (some status_code))
  | _ => none

/-- `DynamicResponse.full_context`: start from `{}`, update with the context,
then with `extra` when that attribute is present. -/
def DynamicResponse.full_context (d : DynamicResponse) : Ctx :=
  let fc := aupdate [] d.context
  match d.extra with
  | some e => aupdate fc e
  | none => fc

/-- The header post-processing shared by all `render_response` methods:
when the `extra_headers` attribute is present, assign each of its bindings
onto the response, in order. -/
def applyExtraHeaders (eh : Option Headers) (r : Res) : Res :=
  match eh with
  | none => r
  | some hs => hs.foldl (fun acc kv => acc.setHeader kv.1 kv.2) r

/-- `SerializeOrRender`: the base dispatcher plus the template name set by
its `__init__` after the base constructor runs. -/
structure SerializeOrRender extends DynamicResponse where
  template : String
deriving DecidableEq, Repr

/-- `SerializeOrRender.__init__(self, template, context={}, **kwargs)`. -/
def SerializeOrRender.init (template : String) (context : Ctx)
    (kwargs : List KwArg) : SerializeOrRender :=
  { DynamicResponse.init context kwargs with template := template }

/-- `SerializeOrRender.render_response`: serialize for API requests, else
`render_to_response(self.template, self.full_context(), RequestContext(request))`;
then apply `extra_headers`. The `response` argument is taken but never read. -/
def SerializeOrRender.render_response (flag : Bool) (s : SerializeOrRender)
    (request : Request) (response : Res) : Option Res :=
  let res :=
    if request.is_api then
      s.toDynamicResponse.serialize flag
    else
      some ⟨.rendered s.template s.toDynamicResponse.full_context request, []⟩
  res.map (applyExtraHeaders s.extra_headers)

/-- `SerializeOrRedirect`: the base dispatcher plus the redirect location. -/
structure SerializeOrRedirect extends DynamicResponse where
  url : String
deriving DecidableEq, Repr

/-- `SerializeOrRedirect.__init__(self, url, context={}, **kwargs)`. -/
def SerializeOrRedirect.init (url : String) (context : Ctx)
    (kwargs : List KwArg) : SerializeOrRedirect :=
  { DynamicResponse.init context kwargs with url := url }

/-- `SerializeOrRedirect.render_response`: serialize for API requests, else
`HttpResponseRedirect(self.url)`; then apply `extra_headers`. -/
def SerializeOrRedirect.render_response (flag : Bool) (s : SerializeOrRedirect)
    (request : Request) (response : Res) : Option Res :=
  let res :=
    if request.is_api then
      s.toDynamicResponse.serialize flag
    else
      some ⟨.redirect s.url, []⟩
  res.map (applyExtraHeaders s.extra_headers)

/-- `Serialize`: serializes for both API and normal requests. -/
structure Serialize extends DynamicResponse
deriving DecidableEq, Repr

/-- `Serialize.__init__(self, context={}, **kwargs)`. -/
def Serialize.init (context : Ctx) (kwargs : List KwArg) : Serialize :=
  { DynamicResponse.init context kwargs with }

/-- `Serialize.render_response`: always `self.serialize()`, then apply
`extra_headers`; neither argument is consulted. -/
def Serialize.render_response (flag : Bool) (s : Serialize)
    (request : Request) (response : Res) : Option Res :=
  (s.toDynamicResponse.serialize flag).map (applyExtraHeaders s.extra_headers)

/-- Does a keyword argument assign the `status` attribute? -/
def KwArg.setsStatus : KwArg → Bool
  | .status _ => true
  | _ => false

/-!  Helper lemmas about dictionary assignment and header post-processing. -/

theorem aget_aset_self {α : Type} (l : List (String × α)) (k : String) (v : α) :
    aget (aset l k v) k = some v := by
  induction l with
  | nil => simp [aset, aget]
  | cons kv t ih =>
    obtain ⟨a, w⟩ := kv
    by_cases ha : a = k
    · simp [aset, ha, aget]
    · simp [aset, ha, aget, ih]

theorem aget_aset_ne {α : Type} (l : List (String × α)) (k k' : String) (v : α)
    (hne : k' ≠ k) : aget (aset l k v) k' = aget l k' := by
  induction l with
  | nil => simp [aset, aget, Ne.symm hne]
  | cons kv t ih =>
    obtain ⟨a, w⟩ := kv
    by_cases ha : a = k
    · subst ha
      simp [aset, aget, Ne.symm hne]
    · simp [aset, ha, aget, ih]

theorem foldl_setHeader_core (hs : Headers) (r : Res) :
    (hs.foldl (fun acc kv => acc.setHeader kv.1 kv.2) r).core = r.core := by
  induction hs generalizing r with
  | nil => rfl
  | cons kv t ih => exact (ih _).trans rfl

theorem applyExtraHeaders_core (eh : Option Headers) (r : Res) :
    (applyExtraHeaders eh r).core = r.core := by
  cases eh with
  | none => rfl
  | some hs => exact foldl_setHeader_core hs r

theorem foldl_setHeader_aget_of_notmem (hs : Headers) (r : Res) (h : String)
    (hnm : h ∉ hs.map Prod.fst) :
    aget (hs.foldl (fun acc kv => acc.setHeader kv.1 kv.2) r).headers h
      = aget r.headers h := by
  induction hs generalizing r with
  | nil => rfl
  | cons kv t ih =>
    obtain ⟨k, v⟩ := kv
    simp only [List.map_cons, List.mem_cons] at hnm
    push_neg at hnm
    exact (ih (r.setHeader k v) hnm.2).trans (aget_aset_ne r.headers k h v hnm.1)

theorem foldl_setHeader_aget_of_mem (hs : Headers) (r : Res) (h v : String)
    (hnd : (hs.map Prod.fst).Nodup) (hmem : (h, v) ∈ hs) :
    aget (hs.foldl (fun acc kv => acc.setHeader kv.1 kv.2) r).headers h = some v := by
  induction hs generalizing r with
  | nil => cases hmem
  | cons kv t ih =>
    obtain ⟨k, w⟩ := kv
    simp only [List.map_cons, List.nodup_cons] at hnd
    rcases List.mem_cons.mp hmem with heq | hmem'
    · cases heq
      rw [List.foldl_cons]
      exact (foldl_setHeader_aget_of_notmem t _ h hnd.1).trans
        (aget_aset_self r.headers h v)
    · exact ih (r.setHeader k w) hnd.2 hmem'

theorem applyExtraHeaders_aget (hs : Headers) (r : Res) (h v : String)
    (hnd : (hs.map Prod.fst).Nodup) (hmem : (h, v) ∈ hs) :
    aget (applyExtraHeaders (some hs) r).headers h = some v :=
  foldl_setHeader_aget_of_mem hs r h v hnd hmem

theorem mapApplyExtraHeaders_aget (hs : Headers) (h v : String)
    (hnd : (hs.map Prod.fst).Nodup) (hmem : (h, v) ∈ hs)
    (o : Option Res) (r : Res)
    (hr : Option.map (applyExtraHeaders (some hs)) o = some r) :
    aget r.headers h = some v := by
  obtain ⟨r0, _, rfl⟩ := Option.map_eq_some'.mp hr
  exact applyExtraHeaders_aget hs r0 h v hnd hmem

theorem serialize_shape (flag : Bool) (d : DynamicResponse) (r : Res)
    (h : d.serialize flag = some r) :
    (∃ b c, r.core = ResCore.json b c) ∧ r.headers = [] := by
  obtain ⟨ctx, st, ex, hd⟩ := d
  cases st with
  | pairv l c =>
    cases ex with
    | none =>
      simp only [DynamicResponse.serialize, JsonResponse] at h
      split_ifs at h <;> (cases h; exact ⟨⟨_, _, rfl⟩, rfl⟩)
    | some e =>
      simp only [DynamicResponse.serialize, JsonResponse] at h
      split_ifs at h <;> (cases h; exact ⟨⟨_, _, rfl⟩, rfl⟩)
  | str s => cases h
  | natv n => cases h
  | form b e => cases h
  | sdict m => cases h

theorem init_status_of_no_status_kwarg (context : Ctx) (kwargs : List KwArg)
    (h : kwargs.all (fun k => ! k.setsStatus) = true) :
    (DynamicResponse.init context kwargs).status
      = agetD context "status" (Value.pairv CR_OK.1 CR_OK.2) := by
  have key : ∀ (ks : List KwArg) (d : DynamicResponse),
      ks.all (fun k => ! k.setsStatus) = true →
      (ks.foldl applyKw d).status = d.status := by
    intro ks
    induction ks with
    | nil => intro d _; rfl
    | cons k t ih =>
      intro d hall
      simp only [List.all_cons, Bool.and_eq_true] at hall
      rw [List.foldl_cons]
      refine (ih _ hall.2).trans ?_
      cases k with
      | extra e => rfl
      | extra_headers eh => rfl
      | status s => simp [KwArg.setsStatus] at hall
  exact key kwargs _ h

/-!  Claim theorems. -/

/-- C1, counterexample: a dispatcher with status OK, empty context and a
non-empty `extra` mapping serializes to a body equal to the context (`{}`),
while the full context is `{'a': 'x'}` — so the OK body does not equal the
full context. -/
theorem c1_counterexample :
    (DynamicResponse.init [] [KwArg.extra [("a", Value.str "x")]]).serialize true
      = some ⟨ResCore.json (some []) 200, []⟩
    ∧ (DynamicResponse.init [] [KwArg.extra [("a", Value.str "x")]]).full_context
      = [("a", Value.str "x")]
    ∧ (([] : Ctx) ≠ [("a", Value.str "x")]) :=
  ⟨rfl, rfl, by decide⟩

/-- C1 (amended): for every dispatcher whose status is OK, `serialize`
returns a JSON response with numeric code 200 whose body equals the context
mapping itself — the `extra` mapping is not merged in. -/
theorem serialize_ok (flag : Bool) (d : DynamicResponse)
    (h : d.status = Value.pairv "OK" 200) :
    d.serialize flag = some ⟨ResCore.json (some d.context) 200, []⟩ := by
  obtain ⟨ctx, st, ex, hd⟩ := d
  cases h
  cases ex <;> rfl

/-- Witness for C1's amended theorem at a concrete dispatcher. -/
theorem serialize_ok_witness :
    (DynamicResponse.init [("k", Value.str "v")] []).serialize true
      = some ⟨ResCore.json (some [("k", Value.str "v")]) 200, []⟩ :=
  serialize_ok true (DynamicResponse.init [("k", Value.str "v")] []) rfl

/-- C4: for every dispatcher whose status is one of the table's entries other
than OK and INVALID_DATA (NOT_FOUND/404, CONFIRM/405, DELETED/204,
REQUIRES_UPGRADE/402), `serialize` returns an empty body with the status's
numeric code. -/
theorem serialize_other_status (flag : Bool) (d : DynamicResponse)
    (s : String × Nat)
    (hmem : s = CR_NOT_FOUND ∨ s = CR_CONFIRM ∨ s = CR_DELETED
      ∨ s = CR_REQUIRES_UPGRADE)
    (hst : d.status = Value.pairv s.1 s.2) :
    d.serialize flag = some ⟨ResCore.json none s.2, []⟩ := by
  obtain ⟨ctx, st, ex, hd⟩ := d
  cases hst
  rcases hmem with h | h | h | h <;> subst h <;> cases ex <;> rfl

/-- Witness for C4 at a concrete NOT_FOUND dispatcher. -/
theorem serialize_other_status_witness :
    (DynamicResponse.init [("status", Value.pairv "NOT_FOUND" 404)] []).serialize
      true = some ⟨ResCore.json none 404, []⟩ :=
  serialize_other_status true
    (DynamicResponse.init [("status", Value.pairv "NOT_FOUND" 404)] [])
    CR_NOT_FOUND (Or.inl rfl) rfl

/-- C6: the always-serialize variant produces the same response for any two
requests (in particular any two differing only in `is_api`), and that
response is always the result of `serialize` with the extra headers
applied. -/
theorem serialize_variant_ignores_request (flag : Bool) (s : Serialize)
    (req1 req2 : Request) (response : Res) :
    s.render_response flag req1 response = s.render_response flag req2 response
    ∧ s.render_response flag req1 response
        = Option.map (applyExtraHeaders s.extra_headers)
            (s.toDynamicResponse.serialize flag) :=
  ⟨rfl, rfl⟩

/-- C8, counterexample: a `status` keyword argument is applied by the
`setattr` loop after the status is read from the context, so a dispatcher
constructed with `status=CR_NOT_FOUND` and a context without a `'status'`
entry carries status NOT_FOUND/404, not the context-derived default OK/200. -/
theorem c8_counterexample :
    (DynamicResponse.init [] [KwArg.status (Value.pairv "NOT_FOUND" 404)]).status
      = Value.pairv "NOT_FOUND" 404
    ∧ agetD ([] : Ctx) "status" (Value.pairv "OK" 200) = Value.pairv "OK" 200
    ∧ Value.pairv "NOT_FOUND" 404 ≠ Value.pairv "OK" 200 :=
  ⟨rfl, rfl, by decide⟩

/-- C8 (amended): for every dispatcher constructed without a `status` keyword
argument, the status tag equals the context's optional `'status'` entry
(defaulting to OK when absent); a `status` keyword argument, applied by the
`setattr` loop after that read, overrides it. No operation mutates the tag:
`serialize`, `full_context` and `render_response` only read the dispatcher. -/
theorem init_status_from_context (context : Ctx) (kwargs : List KwArg)
    (h : kwargs.all (fun k => ! k.setsStatus) = true) :
    (DynamicResponse.init context kwargs).status
      = agetD context "status" (Value.pairv CR_OK.1 CR_OK.2) :=
  init_status_of_no_status_kwarg context kwargs h

/-- Witness for C8's amended theorem: a `status`-free keyword list leaves the
context-supplied status in place. -/
theorem init_status_from_context_witness :
    (DynamicResponse.init [("status", Value.pairv "CONFIRM" 405)]
        [KwArg.extra [("a", Value.str "x")]]).status
      = Value.pairv "CONFIRM" 405 :=
  init_status_from_context [("status", Value.pairv "CONFIRM" 405)]
    [KwArg.extra [("a", Value.str "x")]] rfl

/-- C9: `serialize` dispatches only on the numeric component of the status
tuple: the label is never inspected, any status `(l, 200)` yields the OK
response with the context as body, and any status `(l, 400)` takes the same
invalid-data branch as `('INVALID', 400)`. -/
theorem serialize_ignores_label (flag : Bool) (context : Ctx)
    (extra : Option Ctx) (eh : Option Headers) (l1 l2 : String) (c : Nat) :
    DynamicResponse.serialize flag ⟨context, Value.pairv l1 c, extra, eh⟩
      = DynamicResponse.serialize flag ⟨context, Value.pairv l2 c, extra, eh⟩
    ∧ (c = 200 →
        DynamicResponse.serialize flag ⟨context, Value.pairv l1 c, extra, eh⟩
          = some ⟨ResCore.json (some context) 200, []⟩)
    ∧ (c = 400 →
        DynamicResponse.serialize flag ⟨context, Value.pairv l1 c, extra, eh⟩
          = DynamicResponse.serialize flag
              ⟨context, Value.pairv "INVALID" 400, extra, eh⟩) := by
  refine ⟨rfl, ?_, ?_⟩
  · rintro rfl
    cases extra <;> rfl
  · rintro rfl
    rfl

/-- Witness for C9 at concrete labels and codes. -/
theorem serialize_ignores_label_witness :
    DynamicResponse.serialize true ⟨[], Value.pairv "WEIRD" 200, none, none⟩
      = some ⟨ResCore.json (some []) 200, []⟩
    ∧ DynamicResponse.serialize true ⟨[], Value.pairv "WEIRD" 400, none, none⟩
      = DynamicResponse.serialize true
          ⟨[], Value.pairv "INVALID" 400, none, none⟩ :=
  ⟨(serialize_ignores_label true [] none none "WEIRD" "X" 200).2.1 rfl,
   (serialize_ignores_label true [] none none "WEIRD" "X" 400).2.2 rfl⟩

/-- C10: every `render_response` ignores its `response` argument entirely —
for each of the three variants, any two values of that argument yield the
same result. -/
theorem render_response_ignores_response (flag : Bool) (request : Request)
    (resp1 resp2 : Res) :
    (∀ s : SerializeOrRender,
       s.render_response flag request resp1 = s.render_response flag request resp2)
    ∧ (∀ s : SerializeOrRedirect,
       s.render_response flag request resp1 = s.render_response flag request resp2)
    ∧ (∀ s : Serialize,
       s.render_response flag request resp1 = s.render_response flag request resp2) :=
  ⟨fun _ => rfl, fun _ => rfl, fun _ => rfl⟩

/-- C2, counterexample: with the flag on, an extra mapping that contains an
invalid form with errors `{'__all__': ['bad'], 'name': ['required', 'too short']}`
and a second invalid form with errors `{'name': ['other']}` serializes to
`{'general_errors': 'bad', 'field_errors': {'name': 'other'}}` — the later
form overrides the field entry, so "at least one such form" does not pin the
body down to `{'general_errors': 'bad', 'field_errors': {'name': 'required too short'}}`. -/
theorem c2_counterexample :
    (DynamicResponse.init [("status", Value.pairv "INVALID" 400)]
        [KwArg.extra
          [("f", Value.form false
             [("__all__", ErrVal.lst ["bad"]),
              ("name", ErrVal.lst ["required", "too short"])]),
           ("g", Value.form false [("name", ErrVal.lst ["other"])])]]).serialize true
      = some ⟨ResCore.json
          (some [("general_errors", Value.str "bad"),
                 ("field_errors", Value.sdict [("name", "other")])]) 400, []⟩
    ∧ (some ⟨ResCore.json
          (some [("general_errors", Value.str "bad"),
                 ("field_errors", Value.sdict [("name", "other")])]) 400, []⟩
        ≠ (some ⟨ResCore.json
          (some [("general_errors", Value.str "bad"),
                 ("field_errors", Value.sdict [("name", "required too short")])]) 400,
          []⟩ : Option Res)) :=
  ⟨rfl, by decide⟩

/-- C2 (amended): for every dispatcher with status code 400, the flag on, and
an extra mapping whose form-like values consist of exactly one form, invalid,
with errors `{'__all__': ['bad'], 'name': ['required', 'too short']}`,
`serialize` returns status 400 with body
`{'general_errors': 'bad', 'field_errors': {'name': 'required too short'}}`:
the multi-error list is flattened to one space-joined string and `'__all__'`
is split out as `general_errors`. -/
theorem serialize_invalid_form_errors (d : DynamicResponse) (l : String)
    (ex : Ctx)
    (hst : d.status = Value.pairv l 400)
    (hex : d.extra = some ex)
    (hforms : formsOf ex
      = [(false, [("__all__", ErrVal.lst ["bad"]),
                  ("name", ErrVal.lst ["required", "too short"])])]) :
    d.serialize true
      = some ⟨ResCore.json
          (some [("general_errors", Value.str "bad"),
                 ("field_errors", Value.sdict [("name", "required too short")])])
          400, []⟩ := by
  have hcoll : collectFormErrors ex
      = [("general_errors", Value.str "bad"),
         ("field_errors", Value.sdict [("name", "required too short")])] := by
    unfold collectFormErrors
    rw [hforms]
    rfl
  obtain ⟨ctx, st, exo, hd⟩ := d
  cases hst
  cases hex
  simp [DynamicResponse.serialize, JsonResponse, CR_OK, CR_INVALID_DATA, hcoll]

/-- Witness for C2's amended theorem at a concrete dispatcher. -/
theorem serialize_invalid_form_errors_witness :
    (DynamicResponse.init [("status", Value.pairv "INVALID" 400)]
        [KwArg.extra
          [("f", Value.form false
             [("__all__", ErrVal.lst ["bad"]),
              ("name", ErrVal.lst ["required", "too short"])])]]).serialize true
      = some ⟨ResCore.json
          (some [("general_errors", Value.str "bad"),
                 ("field_errors", Value.sdict [("name", "required too short")])])
          400, []⟩ :=
  serialize_invalid_form_errors _ "INVALID" _ rfl rfl rfl

/-- C3, counterexample: with status 400, the flag ON and an extra mapping
holding no form-like object, `serialize` returns `JsonResponse({}, 400)` — a
body that is the empty JSON object — while the flag-off fall-through returns
the bodiless `JsonResponse(status=400)`; the two responses are not the same. -/
theorem c3_counterexample :
    (DynamicResponse.init [("status", Value.pairv "INVALID" 400)]
        [KwArg.extra [("x", Value.str "v")]]).serialize true
      = some ⟨ResCore.json (some []) 400, []⟩
    ∧ (DynamicResponse.init [("status", Value.pairv "INVALID" 400)]
        [KwArg.extra [("x", Value.str "v")]]).serialize false
      = some ⟨ResCore.json none 400, []⟩
    ∧ ResCore.json (some ([] : Ctx)) 400 ≠ ResCore.json none 400 :=
  ⟨rfl, rfl, by decide⟩

/-- C3 (amended): for status code 400, the flag-off case and the
absent-`extra` case both produce the bodiless default response with code 400;
but when the flag is on and an extra mapping is present yet contains no
form-like object, the body is the empty errors dictionary `{}` (an empty JSON
object), not the bodiless default. -/
theorem serialize_invalid_default (d : DynamicResponse) (l : String)
    (hst : d.status = Value.pairv l 400) :
    (∀ flag, d.extra = none → d.serialize flag = some ⟨ResCore.json none 400, []⟩)
    ∧ d.serialize false = some ⟨ResCore.json none 400, []⟩
    ∧ (∀ ex, d.extra = some ex → formsOf ex = [] →
        d.serialize true = some ⟨ResCore.json (some []) 400, []⟩) := by
  obtain ⟨ctx, st, exo, hd⟩ := d
  cases hst
  refine ⟨?_, ?_, ?_⟩
  · intro flag hex
    cases hex
    rfl
  · cases exo <;> rfl
  · intro ex hex hforms
    cases hex
    have hcoll : collectFormErrors ex = [] := by
      unfold collectFormErrors
      rw [hforms]
      rfl
    simp [DynamicResponse.serialize, JsonResponse, CR_OK, CR_INVALID_DATA, hcoll]

/-- Witness for C3's amended theorem at concrete dispatchers. -/
theorem serialize_invalid_default_witness :
    (DynamicResponse.init [("status", Value.pairv "INVALID" 400)]
        [KwArg.extra [("x", Value.str "v")]]).serialize false
      = some ⟨ResCore.json none 400, []⟩
    ∧ (DynamicResponse.init [("status", Value.pairv "INVALID" 400)]
        [KwArg.extra [("x", Value.str "v")]]).serialize true
      = some ⟨ResCore.json (some []) 400, []⟩ :=
  ⟨(serialize_invalid_default _ "INVALID" rfl).2.1,
   (serialize_invalid_default _ "INVALID" rfl).2.2 [("x", Value.str "v")] rfl rfl⟩

/-- C5: for the render-or-serialize variant, a non-API request always yields
the rendered template over the full context (never a JSON-serialized
response), and an API request always yields the `serialize` result with the
extra headers applied (never a rendered template). -/
theorem serializeOrRender_branches (flag : Bool) (s : SerializeOrRender)
    (request : Request) (response : Res) :
    (request.is_api = false →
      s.render_response flag request response
        = some (applyExtraHeaders s.extra_headers
            ⟨ResCore.rendered s.template s.toDynamicResponse.full_context request,
             []⟩)
      ∧ ∀ r, s.render_response flag request response = some r →
          r.core.isJson = false)
    ∧ (request.is_api = true →
      s.render_response flag request response
        = Option.map (applyExtraHeaders s.extra_headers)
            (s.toDynamicResponse.serialize flag)
      ∧ ∀ r, s.render_response flag request response = some r →
          r.core.isRendered = false) := by
  constructor
  · intro hapi
    have hdef : s.render_response flag request response
        = some (applyExtraHeaders s.extra_headers
            ⟨ResCore.rendered s.template s.toDynamicResponse.full_context request,
             []⟩) := by
      simp [SerializeOrRender.render_response, hapi]
    refine ⟨hdef, ?_⟩
    intro r hr
    rw [hdef] at hr
    cases hr
    rw [applyExtraHeaders_core]
    rfl
  · intro hapi
    have hdef : s.render_response flag request response
        = Option.map (applyExtraHeaders s.extra_headers)
            (s.toDynamicResponse.serialize flag) := by
      simp [SerializeOrRender.render_response, hapi]
    refine ⟨hdef, ?_⟩
    intro r hr
    rw [hdef] at hr
    obtain ⟨r0, hr0, rfl⟩ := Option.map_eq_some'.mp hr
    obtain ⟨⟨b, c, hcore⟩, -⟩ := serialize_shape flag s.toDynamicResponse r0 hr0
    rw [applyExtraHeaders_core, hcore]
    rfl

/-- Witness for C5 at a concrete dispatcher, one request per branch. -/
theorem serializeOrRender_branches_witness :
    (SerializeOrRender.init "home.html" [] []).render_response true
        ⟨false, 0⟩ ⟨ResCore.redirect "u", []⟩
      = some ⟨ResCore.rendered "home.html" [] ⟨false, 0⟩, []⟩
    ∧ (SerializeOrRender.init "home.html" [] []).render_response true
        ⟨true, 0⟩ ⟨ResCore.redirect "u", []⟩
      = some ⟨ResCore.json (some []) 200, []⟩ :=
  ⟨((serializeOrRender_branches true (SerializeOrRender.init "home.html" [] [])
      ⟨false, 0⟩ ⟨ResCore.redirect "u", []⟩).1 rfl).1,
   ((serializeOrRender_branches true (SerializeOrRender.init "home.html" [] [])
      ⟨true, 0⟩ ⟨ResCore.redirect "u", []⟩).2 rfl).1⟩

/-- C7: for each of the three variants, every `(name, value)` binding of an
attached `extra_headers` mapping (with distinct names, as in a Python dict)
is present verbatim on the response `render_response` returns, whatever the
request kind. -/
theorem extra_headers_present (hs : Headers) (h v : String)
    (hnd : (hs.map Prod.fst).Nodup) (hmem : (h, v) ∈ hs) :
    (∀ (flag : Bool) (s : SerializeOrRender) (request : Request)
       (response r : Res),
       s.extra_headers = some hs →
       s.render_response flag request response = some r →
       aget r.headers h = some v)
    ∧ (∀ (flag : Bool) (s : SerializeOrRedirect) (request : Request)
       (response r : Res),
       s.extra_headers = some hs →
       s.render_response flag request response = some r →
       aget r.headers h = some v)
    ∧ (∀ (flag : Bool) (s : Serialize) (request : Request) (response r : Res),
       s.extra_headers = some hs →
       s.render_response flag request response = some r →
       aget r.headers h = some v) := by
  refine ⟨?_, ?_, ?_⟩
  · intro flag s request response r heq hres
    simp only [SerializeOrRender.render_response, heq] at hres
    exact mapApplyExtraHeaders_aget hs h v hnd hmem _ r hres
  · intro flag s request response r heq hres
    simp only [SerializeOrRedirect.render_response, heq] at hres
    exact mapApplyExtraHeaders_aget hs h v hnd hmem _ r hres
  · intro flag s request response r heq hres
    simp only [Serialize.render_response, heq] at hres
    exact mapApplyExtraHeaders_aget hs h v hnd hmem _ r hres

/-- Witness for C7: a concrete render-or-serialize dispatcher with two extra
headers carries each of them on the final response. -/
theorem extra_headers_present_witness :
    aget ([("X-A", "1"), ("X-B", "2")] : Headers) "X-B" = some "2" :=
  (extra_headers_present [("X-A", "1"), ("X-B", "2")] "X-B" "2"
      (by decide) (by decide)).1 true
    (SerializeOrRender.init "t" []
      [KwArg.extra_headers [("X-A", "1"), ("X-B", "2")]])
    ⟨true, 0⟩ ⟨ResCore.redirect "u", []⟩
    ⟨ResCore.json (some []) 200, [("X-A", "1"), ("X-B", "2")]⟩ rfl rfl

end DynRes
